import Mathlib

/-!
Shallow embedding of the scout-vision native inference bridge.

Two backend variants of the same boundary interface are embedded:

* the simplified stand-in backend (`opencv_wrapper.c`: `SimpleMat`,
  `SimpleNet`, `simple_dnn_load`, `simple_dnn_forward`, `simple_mat_free`);
* the real OpenCV-backed wrapper (`opencv_dnn_readNetFromDarknet`,
  `opencv_dnn_setInput`, `opencv_dnn_forward`, `opencv_dnn_blobFromImage`,
  `opencv_dnn_getOutputData`, `opencv_dnn_getOutputDims`,
  `opencv_dnn_releaseNet`).

C `int` fields are embedded as `Int`; `float` storage is embedded as `ℚ`
values, with the C literal `0.1` represented by the rational `1/10` (no
floating-point arithmetic is performed by the code, only storage of the
literal and zero). A nullable C pointer is embedded as an `Option`.
The OpenCV library itself is not part of the repository; its primitives
(`readNetFromDarknet`, `setInput`, `forward`, `blobFromImage`) are modelled
from the spec where marked below.
-/

/-! ## Simplified backend variant (value model) -/

/-- `SimpleMat` from `opencv_wrapper.c`: a rows x cols float buffer.
`data = none` embeds a NULL data pointer; `data = some f` embeds allocated
storage read at flat index `j` as `f j`. -/
structure SimpleMat where
  rows : Int
  cols : Int
  data : Option (Nat → ℚ)

/-- `SimpleNet` from `opencv_wrapper.c`: an array of 24 layer descriptors
(all 24 slots are allocated by the loader) and a layer count. -/
structure SimpleNet where
  layers : Fin 24 → SimpleMat
  num_layers : Int

/-- Store `v` at flat index `i` of the storage `f` (a single C array write). -/
def writeFlat (f : Nat → ℚ) (i : Nat) (v : ℚ) : Nat → ℚ :=
  fun j => if j = i then v else f j

/-- Storage produced by the yolo branch of `simple_dnn_forward`: a
`calloc`-zeroed 507*85 float array, then the loop
`for(i = 0; i < 10; i++) data[i * 85 + 4] = 0.1;`. -/
def simpleYoloData : Nat → ℚ :=
  (List.range 10).foldl (fun f i => writeFlat f (i * 85 + 4) (1/10)) (fun _ => 0)

/-- Character-list version of C `strncmp`-style matching: does the haystack
start with the pattern. -/
def strStartsWith : List Char → List Char → Bool
  | _, [] => true
  | [], _ :: _ => false
  | h :: hs, p :: ps => (h = p) && strStartsWith hs ps

/-- C `strstr(hay, pat) != NULL`: the pattern occurs as a contiguous
substring of the haystack. -/
def strContains : List Char → List Char → Bool
  | [], pat => strStartsWith [] pat
  | hay@(_ :: hs), pat => strStartsWith hay pat || strContains hs pat

/-- `simple_dnn_load` from `opencv_wrapper.c`: ignores both path arguments,
allocates a net with `num_layers = 24` and 24 layer descriptors where
layers 16 and 23 get 507 rows, every layer gets 85 cols and a NULL data
pointer. `malloc` is assumed to succeed (the C code does not check it). -/
def simple_dnn_load (cfg weights : String) : SimpleNet :=
  { num_layers := 24
    layers := fun i =>
      { rows := if i.val = 16 ∨ i.val = 23 then 507 else 0
        cols := 85
        data := none } }

/-- `simple_dnn_forward` from `opencv_wrapper.c`: allocates an output
descriptor unconditionally (the net and input arguments are never read);
if the layer string is non-NULL and contains "yolo" the output is 507 x 85
with `calloc`-zeroed storage and ten writes of `0.1` at column 4, otherwise
the output is 0 x 0 with a NULL data pointer. The returned pointer is the
fresh `malloc` result, hence always non-null (`some`). -/
def simple_dnn_forward (net : Option SimpleNet) (input : Option SimpleMat)
    (layer : Option String) : Option SimpleMat :=
  some (match layer with
    | some s =>
      if strContains s.toList ("yolo".toList) then
        { rows := 507, cols := 85, data := some simpleYoloData }
      else
        { rows := 0, cols := 0, data := none }
    | none => { rows := 0, cols := 0, data := none })

/-! ## Heap model for the lifecycle operations -/

/-- A `SimpleMat` descriptor as it sits on the heap: the data field is a
nullable address of a separately allocated float-storage block. -/
structure MatDesc where
  rows : Int
  cols : Int
  data : Option Nat
deriving DecidableEq

/-- Heap state for the lifecycle claims: `mats` maps addresses to live
`SimpleMat` descriptor allocations, `arrays` maps addresses to live
float-storage allocations. `none` means no live allocation at that
address. -/
structure MatHeap where
  mats : Nat → Option MatDesc
  arrays : Nat → Option Unit

/-- `simple_mat_free` from `opencv_wrapper.c`:
`if(mat) { if(mat->data) free(mat->data); free(mat); }`.
Passing NULL leaves the heap unchanged. Freeing a pointer that is not a
live descriptor allocation is undefined behaviour in C; the model leaves
the heap unchanged there, and the theorems only cover the NULL and
live-pointer cases. -/
def simple_mat_free (h : MatHeap) (mat_ptr : Option Nat) : MatHeap :=
  match mat_ptr with
  | none => h
  | some p =>
    match h.mats p with
    | none => h
    | some d =>
      let h1 : MatHeap :=
        match d.data with
        | some q => { h with arrays := fun a => if a = q then none else h.arrays a }
        | none => h
      { h1 with mats := fun a => if a = p then none else h1.mats a }

/-- `opencv_dnn_releaseNet` from the embedded C++ wrapper: the body is
empty (comment in source: the net is a global and is deliberately not
deleted), so the heap is returned unchanged for every argument. -/
def opencv_dnn_releaseNet (h : MatHeap) (net_ptr : Option Nat) : MatHeap :=
  h

/-! ## Real backend variant -/

/-- Preferable-backend setting of a `cv::dnn::Net`; the wrapper always
selects `DNN_BACKEND_OPENCV` (the CPU reference backend). -/
inductive DnnBackend
  | auto
  | opencv
deriving DecidableEq

/-- Preferable-target setting of a `cv::dnn::Net`; the wrapper always
selects `DNN_TARGET_CPU`. -/
inductive DnnTarget
  | auto
  | cpu
deriving DecidableEq

/-- A 4-D blob produced by `blobFromImage` (batch, channels, height,
width). No claim reads blob elements, so only the shape is carried. -/
structure CvBlob where
  batch : Int
  channels : Int
  height : Int
  width : Int
deriving DecidableEq

/-- Shape of a `cv::Mat` image (the wrapper only ever builds 480 x 640
3-channel images; pixel contents are not read by any claim). -/
structure CvImage where
  rows : Int
  cols : Int
  channels : Int
deriving DecidableEq

/-- A 2-D `cv::Mat` of floats: shape plus the stored element at each
in-allocation position. -/
structure CvMat where
  rows : Int
  cols : Int
  elem : Int → Int → ℚ

/-- Raw storage access `mat.at<float>(row, col)`: the access stays inside
the allocation exactly when `(row, col)` lies in `[0, rows) x [0, cols)`;
outside that rectangle the access reads memory out of the buffer bounds,
modelled as `none`. -/
def CvMat.read (m : CvMat) (row col : Int) : Option ℚ :=
  if 0 ≤ row ∧ row < m.rows ∧ 0 ≤ col ∧ col < m.cols then
    some (m.elem row col)
  else
    none

/-- A loaded `cv::dnn::Net`. Modelled from the spec: the network carries
an emptiness flag, the backend/target configuration, the currently bound
input blob, the names of its unconnected output layers, each layer's
declared output shape and stored output data, and an abstract fault
predicate saying whether the native evaluation of a given set of output
layers (with a given bound input) raises a `cv::Exception`. The OpenCV
implementation of these is not part of the repository. -/
structure CvNet where
  empty : Bool
  backend : DnnBackend
  target : DnnTarget
  input : Option CvBlob
  unconnectedOutLayersNames : List String
  layerShape : String → Int × Int
  layerData : String → Int → Int → ℚ
  faults : Option CvBlob → List String → Bool

/-- Modelled from the spec: the native evaluation
`net.forward(outputs, outNames)` (external OpenCV, not in this repository)
either raises (`none`, when `faults` holds for the bound input and the
requested names) or produces, for each requested layer name, a tensor of
that layer's declared shape. -/
def CvNet.forwardPrim (net : CvNet) (outNames : List String) : Option (List CvMat) :=
  if net.faults net.input outNames then
    none
  else
    some (outNames.map fun nm =>
      { rows := (net.layerShape nm).1
        cols := (net.layerShape nm).2
        elem := net.layerData nm })

/-- Output-name resolution inside `opencv_dnn_forward`: a non-NULL,
non-empty `layer_name` restricts execution to that single name, otherwise
the unconnected output layer names of the network are used. -/
def resolveOutNames (net : CvNet) (layer_name : Option String) : List String :=
  match layer_name with
  | some nm => if nm.length > 0 then [nm] else net.unconnectedOutLayersNames
  | none => net.unconnectedOutLayersNames

/-- Outcome of the native Darknet reader. Modelled from the spec:
`cv::dnn::readNetFromDarknet` (external OpenCV, not in this repository)
raises a `cv::Exception` when a resource is missing or malformed
(`throws`), otherwise returns the parsed network, whose `empty` flag is
set when the resulting topology is empty. -/
inductive LoadOutcome
  | throws
  | ok (net : CvNet)

/-- `opencv_dnn_readNetFromDarknet` from the embedded C++ wrapper,
parametrised by the native reader primitive: an exception is caught and
converted to a null return; an empty network yields a null return;
otherwise the backend is set to `DNN_BACKEND_OPENCV`, the target to
`DNN_TARGET_CPU`, and the (heap-copied, globally stored) handle is
returned non-null. -/
def opencv_dnn_readNetFromDarknet (readPrim : String → String → LoadOutcome)
    (cfg weights : String) : Option CvNet :=
  match readPrim cfg weights with
  | .throws => none
  | .ok net =>
    if net.empty then
      none
    else
      some { net with backend := DnnBackend.opencv, target := DnnTarget.cpu }

/-- `opencv_dnn_setInput` from the embedded C++ wrapper: returns -1 when
either pointer is NULL, otherwise binds the blob as the network input and
returns 0. The mutation of the pointed-to net is embedded by returning the
updated net state alongside the status. Modelled from the spec for the
native `setInput` primitive: binding a well-formed blob does not raise. -/
def opencv_dnn_setInput (net_ptr : Option CvNet) (blob_ptr : Option CvBlob) :
    Int × Option CvNet :=
  match net_ptr, blob_ptr with
  | some net, some blob => (0, some { net with input := some blob })
  | _, _ => (-1, net_ptr)

/-- `opencv_dnn_forward` from the embedded C++ wrapper: NULL net yields a
null return; otherwise the output names are resolved, the native forward
pass runs (an exception is caught and converted to null); on success the
first output tensor is cloned into a fresh `cv::Mat` and returned, and if
the outputs vector is empty the fresh default-constructed (0 x 0, no data)
`cv::Mat` is returned. The `blob_ptr` and `output_ptr` arguments are
present in the C signature but never read. -/
def opencv_dnn_forward (net_ptr : Option CvNet) (blob_ptr : Option CvBlob)
    (layer_name : Option String) (output_ptr : Option Nat) : Option CvMat :=
  match net_ptr with
  | none => none
  | some net =>
    match net.forwardPrim (resolveOutNames net layer_name) with
    | none => none
    | some outputs =>
      match outputs with
      | [] => some { rows := 0, cols := 0, elem := fun _ _ => 0 }
      | o :: _ => some o

/-- Modelled from the spec: `cv::dnn::blobFromImage` (external OpenCV, not
in this repository) resizes the image to (width, height), scales pixel
values by the given factor, swaps BGR to RGB, subtracts a zero mean, does
not crop, and returns a 4-D blob of shape batch = 1, channels = 3, then
height, then width. Only the shape is modelled: no claim reads blob
elements. -/
def blobFromImagePrim (img : CvImage) (scale : ℚ) (width height : Int) : CvBlob :=
  { batch := 1, channels := 3, height := height, width := width }

/-- `opencv_dnn_blobFromImage` from the embedded C++ wrapper: a non-NULL
image pointer is wrapped as a 480 x 640 3-channel byte image and cloned, a
NULL image pointer is replaced by `cv::Mat::zeros(480, 640, CV_8UC3)`;
either way the blob primitive is applied and the fresh blob returned
non-null. The raw image pointer is embedded as an opaque address. -/
def opencv_dnn_blobFromImage (image_ptr : Option Nat) (scale : ℚ)
    (width height : Int) : Option CvBlob :=
  let image : CvImage :=
    match image_ptr with
    | some _ => { rows := 480, cols := 640, channels := 3 }
    | none => { rows := 480, cols := 640, channels := 3 }
  some (blobFromImagePrim image scale width height)

/-- `opencv_dnn_getOutputData` from the embedded C++ wrapper:
NULL mat returns 0.0; `row >= rows` or `col >= cols` returns 0.0;
otherwise the raw `at<float>(row, col)` access is performed (note the C
code never checks for negative indices). The result is `some v` when the
function returns the float `v`, and `none` when the unchecked access reads
out of the buffer bounds. -/
def opencv_dnn_getOutputData (mat_ptr : Option CvMat) (row col : Int) : Option ℚ :=
  match mat_ptr with
  | none => some 0
  | some m =>
    if m.rows ≤ row ∨ m.cols ≤ col then
      some 0
    else
      m.read row col

/-- `opencv_dnn_getOutputDims` from the embedded C++ wrapper: writes
`(0, 0)` through the out-pointers and returns -1 on a NULL mat, otherwise
writes the shape and returns 0. Embedded as the triple
(status, written rows, written cols). -/
def opencv_dnn_getOutputDims (mat_ptr : Option CvMat) : Int × Int × Int :=
  match mat_ptr with
  | none => (-1, 0, 0)
  | some m => (0, m.rows, m.cols)

/-! ## Helper lemmas and probe values -/

/-- Evaluating the write loop of the yolo branch: after folding the writes
at indices `i * 85 + 4` for `i < n` over an initial storage, position `j`
holds `1/10` exactly when `j` is one of the written indices. -/
theorem foldl_writeFlat_eq (n : Nat) (f0 : Nat → ℚ) (j : Nat) :
    ((List.range n).foldl (fun f i => writeFlat f (i * 85 + 4) (1/10)) f0) j
      = if j % 85 = 4 ∧ j / 85 < n then 1/10 else f0 j := by
  induction n generalizing f0 with
  | zero => simp
  | succ k ih =>
    rw [List.range_succ, List.foldl_append, List.foldl_cons, List.foldl_nil]
    show writeFlat _ (k * 85 + 4) (1/10) j = _
    simp only [writeFlat]
    rw [ih]
    split_ifs <;> first | rfl | omega

/-- Element view of the yolo-branch storage at the flat index of
position (r, c): `1/10` at column 4 of the first ten rows, `0` elsewhere. -/
theorem simpleYoloData_eq (r c : Nat) (hc : c < 85) :
    simpleYoloData (r * 85 + c) = if c = 4 ∧ r < 10 then 1/10 else 0 := by
  unfold simpleYoloData
  rw [foldl_writeFlat_eq]
  have h1 : (r * 85 + c) % 85 = c := by omega
  have h2 : (r * 85 + c) / 85 = r := by omega
  rw [h1, h2]

/-- Probe network used by the witnesses: non-empty, a single unconnected
output layer named "detection_out" declared 507 x 85, never faulting. -/
def probeNet : CvNet :=
  { empty := false
    backend := DnnBackend.auto
    target := DnnTarget.auto
    input := none
    unconnectedOutLayersNames := ["detection_out"]
    layerShape := fun _ => (507, 85)
    layerData := fun _ _ _ => 0
    faults := fun _ _ => false }

/-- The blob produced by `opencv_dnn_blobFromImage none (1/255) 416 416`. -/
def probeBlob416 : CvBlob := { batch := 1, channels := 3, height := 416, width := 416 }

/-- The probe network after `opencv_dnn_setInput` binds the 416 x 416 blob. -/
def probeNetBound : CvNet := { probeNet with input := some probeBlob416 }

/-- A stand-in input mat for the simplified variant (its forward pass never
reads the input). -/
def c1InputBlob : SimpleMat := { rows := 416, cols := 416, data := none }

/-- Concrete 1 x 1 output mat used for the output-accessor claims. -/
def c2Mat : CvMat := { rows := 1, cols := 1, elem := fun _ _ => 0 }

/-! ## Claim theorems -/

/-- C2 counterexample: the output accessor does not return 0.0 for every
out-of-range index. At the concrete 1 x 1 buffer and (row, col) = (-1, 0)
(outside `[0, rows) x [0, cols)`), the C check `row >= rows || col >= cols`
does not fire and the unchecked `at<float>(-1, 0)` access reads out of the
buffer bounds instead of returning 0.0. -/
theorem spec_C2_counterexample :
    ¬ (opencv_dnn_getOutputData (some c2Mat) (-1) 0 = some 0) := by
  decide

/-- C2 (amended): the output accessor returns 0.0 for a null buffer and
whenever `row ≥ rows` or `col ≥ cols`; for (row, col) inside
`[0, rows) x [0, cols)` it returns the stored element; a negative row or
col below the shape bounds is not checked and the access reads out of the
buffer bounds. -/
theorem spec_C2_amended :
    (∀ row col : Int, opencv_dnn_getOutputData none row col = some 0) ∧
    (∀ (m : CvMat) (row col : Int), m.rows ≤ row ∨ m.cols ≤ col →
      opencv_dnn_getOutputData (some m) row col = some 0) ∧
    (∀ (m : CvMat) (row col : Int), 0 ≤ row → row < m.rows → 0 ≤ col → col < m.cols →
      opencv_dnn_getOutputData (some m) row col = some (m.elem row col)) ∧
    (∀ (m : CvMat) (row col : Int), (row < 0 ∨ col < 0) → row < m.rows → col < m.cols →
      opencv_dnn_getOutputData (some m) row col = none) := by
  refine ⟨fun row col => rfl, ?_, ?_, ?_⟩
  · intro m row col h
    simp only [opencv_dnn_getOutputData]
    rw [if_pos h]
  · intro m row col h1 h2 h3 h4
    simp only [opencv_dnn_getOutputData, CvMat.read]
    rw [if_neg (by omega), if_pos ⟨h1, h2, h3, h4⟩]
  · intro m row col h h2 h4
    simp only [opencv_dnn_getOutputData, CvMat.read]
    rw [if_neg (by omega), if_neg (by omega)]

/-- C2 witness: the amended accessor contract evaluated at the concrete
1 x 1 buffer. -/
theorem spec_C2_witness :
    opencv_dnn_getOutputData (some c2Mat) 5 0 = some 0 ∧
    opencv_dnn_getOutputData (some c2Mat) 0 0 = some (c2Mat.elem 0 0) ∧
    opencv_dnn_getOutputData (some c2Mat) (-1) 0 = none :=
  ⟨spec_C2_amended.2.1 c2Mat 5 0 (Or.inl (by decide)),
   spec_C2_amended.2.2.1 c2Mat 0 0 (by decide) (by decide) (by decide) (by decide),
   spec_C2_amended.2.2.2 c2Mat (-1) 0 (Or.inl (by decide)) (by decide) (by decide)⟩

/-- C3: the network loader returns a non-null handle configured with the
CPU backend and CPU target exactly when the native reader succeeds with a
non-empty topology; a raised native error (missing or malformed resource,
in particular a missing weights path) or an empty topology yields a null
handle, and no fault escapes the boundary (the wrapper is a total
function). -/
theorem spec_C3_load :
    ∀ (readPrim : String → String → LoadOutcome) (cfg weights : String),
    (readPrim cfg weights = LoadOutcome.throws →
      opencv_dnn_readNetFromDarknet readPrim cfg weights = none) ∧
    (∀ net, readPrim cfg weights = LoadOutcome.ok net → net.empty = true →
      opencv_dnn_readNetFromDarknet readPrim cfg weights = none) ∧
    (∀ net, readPrim cfg weights = LoadOutcome.ok net → net.empty = false →
      opencv_dnn_readNetFromDarknet readPrim cfg weights
        = some { net with backend := DnnBackend.opencv, target := DnnTarget.cpu }) ∧
    (∀ hd, opencv_dnn_readNetFromDarknet readPrim cfg weights = some hd →
      hd.backend = DnnBackend.opencv ∧ hd.target = DnnTarget.cpu ∧
      ∃ net, readPrim cfg weights = LoadOutcome.ok net ∧ net.empty = false) := by
  intro readPrim cfg weights
  refine ⟨?_, ?_, ?_, ?_⟩
  · intro hpr
    simp [opencv_dnn_readNetFromDarknet, hpr]
  · intro net hpr he
    simp [opencv_dnn_readNetFromDarknet, hpr, he]
  · intro net hpr he
    simp [opencv_dnn_readNetFromDarknet, hpr, he]
  · intro hd hsome
    cases hpr : readPrim cfg weights with
    | throws =>
      simp [opencv_dnn_readNetFromDarknet, hpr] at hsome
    | ok net =>
      by_cases he : net.empty = true
      · simp [opencv_dnn_readNetFromDarknet, hpr, he] at hsome
      · simp only [opencv_dnn_readNetFromDarknet, hpr, if_neg he, Option.some.injEq] at hsome
        subst hsome
        exact ⟨rfl, rfl, net, rfl, by simpa using he⟩

/-- Native reader used by the C3 witness: a missing weights path raises,
any other pair parses to the probe network. -/
def c3Prim : String → String → LoadOutcome := fun cfg weights =>
  if weights = "missing.weights" then LoadOutcome.throws else LoadOutcome.ok probeNet

/-- C3 witness: loading with a missing weights path yields null, loading a
valid pair yields the CPU-configured handle. -/
theorem spec_C3_witness :
    opencv_dnn_readNetFromDarknet c3Prim "valid.cfg" "missing.weights" = none ∧
    opencv_dnn_readNetFromDarknet c3Prim "valid.cfg" "valid.weights"
      = some { probeNet with backend := DnnBackend.opencv, target := DnnTarget.cpu } :=
  ⟨(spec_C3_load c3Prim "valid.cfg" "missing.weights").1 (by simp [c3Prim]),
   (spec_C3_load c3Prim "valid.cfg" "valid.weights").2.2.1 probeNet (by simp [c3Prim]) rfl⟩

/-- C5: building a blob from a null image reference returns, for every
scale factor and requested (width, height), a non-null buffer of shape
batch = 1, channels = 3, height = target height, width = target width
(synthesized from the zero-filled 640 x 480 3-channel fallback image), and
the build-blob operation never returns null for any image reference. -/
theorem spec_C5_blob :
    ∀ (scale : ℚ) (width height : Int),
      opencv_dnn_blobFromImage none scale width height
        = some { batch := 1, channels := 3, height := height, width := width } ∧
      ∀ image_ptr, opencv_dnn_blobFromImage image_ptr scale width height
        = some { batch := 1, channels := 3, height := height, width := width } := by
  intro scale width height
  refine ⟨rfl, ?_⟩
  intro image_ptr
  cases image_ptr <;> rfl

/-- C6: the bind operation returns status -1 and leaves the network state
unchanged when either the handle or the blob reference is null, and
returns status 0 with the blob bound as input when both are non-null; it
is a total function, so no null argument can crash it. -/
theorem spec_C6_setInput :
    (∀ blob_ptr, opencv_dnn_setInput none blob_ptr = (-1, none)) ∧
    (∀ net, opencv_dnn_setInput (some net) none = (-1, some net)) ∧
    (∀ net blob, opencv_dnn_setInput (some net) (some blob)
      = (0, some { net with input := some blob })) := by
  refine ⟨?_, fun net => rfl, fun net blob => rfl⟩
  intro blob_ptr
  cases blob_ptr <;> rfl

/-- C7: releasing the network is a no-op for every handle value (any
number of iterated calls leaves the heap unchanged, and totality means no
crash); releasing a null buffer reference is a safe no-op; releasing a
live non-null buffer removes its float-storage allocation (when it has
one) and then the descriptor allocation itself, leaving every other
allocation untouched. -/
theorem spec_C7_release :
    (∀ (h : MatHeap) (p : Option Nat) (n : Nat),
      Nat.iterate (fun s => opencv_dnn_releaseNet s p) n h = h) ∧
    (∀ h : MatHeap, simple_mat_free h none = h) ∧
    (∀ (h : MatHeap) (p : Nat) (d : MatDesc), h.mats p = some d →
      (simple_mat_free h (some p)).mats p = none ∧
      (∀ q, d.data = some q → (simple_mat_free h (some p)).arrays q = none) ∧
      (∀ a, a ≠ p → (simple_mat_free h (some p)).mats a = h.mats a) ∧
      (∀ b, d.data ≠ some b → (simple_mat_free h (some p)).arrays b = h.arrays b)) := by
  refine ⟨?_, fun h => rfl, ?_⟩
  · intro h p n
    induction n with
    | zero => rfl
    | succ k ih =>
      rw [Function.iterate_succ_apply]
      exact ih
  · intro h p d hd
    rcases hdd : d.data with _ | q0
    · have hfree : simple_mat_free h (some p)
          = { mats := fun a => if a = p then none else h.mats a, arrays := h.arrays } := by
        simp only [simple_mat_free, hd, hdd]
      refine ⟨by rw [hfree]; simp, ?_, ?_, fun b _ => by rw [hfree]⟩
      · intro q hq
        exact Option.noConfusion hq
      · intro a ha
        rw [hfree]
        simp [ha]
    · have hfree : simple_mat_free h (some p)
          = { mats := fun a => if a = p then none else h.mats a,
              arrays := fun a => if a = q0 then none else h.arrays a } := by
        simp only [simple_mat_free, hd, hdd]
      refine ⟨by rw [hfree]; simp, ?_, ?_, ?_⟩
      · intro q hq
        obtain rfl := Option.some.inj hq
        rw [hfree]
        simp
      · intro a ha
        rw [hfree]
        simp [ha]
      · intro b hb
        have hq0 : b ≠ q0 := fun hbq => hb (by rw [hbq])
        rw [hfree]
        simp [hq0]

/-- Concrete heap for the C7 witness: one live descriptor at address 2
whose storage lives at address 7. -/
def c7Heap : MatHeap :=
  { mats := fun a => if a = 2 then some { rows := 507, cols := 85, data := some 7 } else none
    arrays := fun a => if a = 7 then some () else none }

/-- C7 witness: five iterated network releases are the identity on the
concrete heap; a null buffer release is the identity; freeing the live
descriptor at address 2 removes it and its storage at address 7 while
leaving address 0 untouched. -/
theorem spec_C7_witness :
    Nat.iterate (fun s => opencv_dnn_releaseNet s (some 3)) 5 c7Heap = c7Heap ∧
    simple_mat_free c7Heap none = c7Heap ∧
    (simple_mat_free c7Heap (some 2)).mats 2 = none ∧
    (simple_mat_free c7Heap (some 2)).arrays 7 = none ∧
    (simple_mat_free c7Heap (some 2)).mats 0 = c7Heap.mats 0 :=
  ⟨spec_C7_release.1 c7Heap (some 3) 5,
   spec_C7_release.2.1 c7Heap,
   (spec_C7_release.2.2 c7Heap 2 { rows := 507, cols := 85, data := some 7 } rfl).1,
   (spec_C7_release.2.2 c7Heap 2 { rows := 507, cols := 85, data := some 7 } rfl).2.1 7 rfl,
   (spec_C7_release.2.2 c7Heap 2 { rows := 507, cols := 85, data := some 7 } rfl).2.2.1 0
     (by decide)⟩

/-- Tensor-buffer invariant of the spec: shape dimensions are
non-negative, and a buffer with zero rows or zero cols carries no data
pointer. -/
def simpleMatInv (m : SimpleMat) : Prop :=
  0 ≤ m.rows ∧ 0 ≤ m.cols ∧ ((m.rows = 0 ∨ m.cols = 0) → m.data = none)

/-- C8: every tensor buffer produced by the simplified core - each of the
24 layer descriptors built by the loader and every forward-pass output -
satisfies the invariant: non-negative shape dimensions, and a null data
pointer whenever a dimension is zero. -/
theorem spec_C8_invariant :
    (∀ (cfg weights : String) (i : Fin 24),
      simpleMatInv ((simple_dnn_load cfg weights).layers i)) ∧
    (∀ net input layer m, simple_dnn_forward net input layer = some m →
      simpleMatInv m) := by
  constructor
  · intro cfg weights i
    refine ⟨?_, by norm_num [simple_dnn_load], fun _ => rfl⟩
    by_cases hi : i.val = 16 ∨ i.val = 23 <;> simp [simple_dnn_load, hi]
  · intro net input layer m hm
    simp only [simple_dnn_forward, Option.some.injEq] at hm
    cases layer with
    | none =>
      subst hm
      exact ⟨le_refl 0, by norm_num, fun _ => rfl⟩
    | some s =>
      cases hs : strContains s.toList ("yolo".toList) with
      | false =>
        simp only [hs, Bool.false_eq_true, if_false] at hm
        subst hm
        exact ⟨le_refl 0, by norm_num, fun _ => rfl⟩
      | true =>
        simp only [hs, if_true] at hm
        subst hm
        exact ⟨by norm_num, by norm_num, fun hz => absurd hz (by norm_num)⟩

/-- C8 witness: the invariant evaluated at layer 0 of a loaded net and at
the output of a forward pass with an absent layer name. -/
theorem spec_C8_witness :
    simpleMatInv ((simple_dnn_load "valid.cfg" "valid.weights").layers 0) ∧
    simpleMatInv { rows := 0, cols := 0, data := none } :=
  ⟨spec_C8_invariant.1 "valid.cfg" "valid.weights" 0,
   spec_C8_invariant.2 none none none { rows := 0, cols := 0, data := none } rfl⟩

/-- C9: the simplified loader eagerly allocates exactly 24 layer
descriptors (`num_layers = 24` over a 24-slot array); every descriptor has
85 cols and a null data pointer; a descriptor has 507 rows exactly at the
two designated detection indices 16 and 23 (so exactly those two have
shape 507 x 85), and every other descriptor has zero rows, an empty
(zero-row) placeholder. -/
theorem spec_C9_layers :
    ∀ cfg weights : String,
      (simple_dnn_load cfg weights).num_layers = 24 ∧
      ∀ i : Fin 24,
        ((simple_dnn_load cfg weights).layers i).cols = 85 ∧
        ((simple_dnn_load cfg weights).layers i).data = none ∧
        (((simple_dnn_load cfg weights).layers i).rows = 507 ↔
          (i.val = 16 ∨ i.val = 23)) ∧
        (¬(i.val = 16 ∨ i.val = 23) →
          ((simple_dnn_load cfg weights).layers i).rows = 0) := by
  intro cfg weights
  refine ⟨rfl, fun i => ⟨rfl, rfl, ?_, ?_⟩⟩
  · by_cases hi : i.val = 16 ∨ i.val = 23 <;> simp [simple_dnn_load, hi]
  · intro hi
    simp [simple_dnn_load, hi]

/-- C9 witness: at a concrete load, layer 16 has 507 rows and layer 0 has
zero rows. -/
theorem spec_C9_witness :
    ((simple_dnn_load "valid.cfg" "valid.weights").layers 16).rows = 507 ∧
    ((simple_dnn_load "valid.cfg" "valid.weights").layers 0).rows = 0 :=
  ⟨(((spec_C9_layers "valid.cfg" "valid.weights").2 16).2.2.1).mpr (by decide),
   ((spec_C9_layers "valid.cfg" "valid.weights").2 0).2.2.2 (by decide)⟩

/-- C10: the simplified backend is input-independent - loading returns
identical structures for any two cfg/weights pairs, and the forward pass
returns identical buffers for any two net/input pairs given the same layer
string; when the layer string contains "yolo" the returned buffer is
507 x 85 and its element at position (r, c) (flat index r * 85 + c) is the
stored float literal 0.1 (embedded as the rational 1/10) exactly at column
4 of rows 0..9, and 0.0 everywhere else. -/
theorem spec_C10_determinism :
    (∀ cfg1 w1 cfg2 w2, simple_dnn_load cfg1 w1 = simple_dnn_load cfg2 w2) ∧
    (∀ net1 input1 net2 input2 layer,
      simple_dnn_forward net1 input1 layer = simple_dnn_forward net2 input2 layer) ∧
    (∀ net input s, strContains s.toList ("yolo".toList) = true →
      ∃ f, simple_dnn_forward net input (some s)
          = some { rows := 507, cols := 85, data := some f } ∧
        ∀ r c : Nat, r < 507 → c < 85 →
          f (r * 85 + c) = if c = 4 ∧ r < 10 then 1/10 else 0) := by
  refine ⟨fun _ _ _ _ => rfl, fun _ _ _ _ _ => rfl, ?_⟩
  intro net input s hs
  refine ⟨simpleYoloData, ?_, ?_⟩
  · simp only [simple_dnn_forward]
    rw [hs]
    rfl
  · intro r c hr hc
    exact simpleYoloData_eq r c hc

/-- C10 witness: the yolo-branch content at a concrete call. -/
theorem spec_C10_witness :
    ∃ f, simple_dnn_forward none none (some "yolo")
        = some { rows := 507, cols := 85, data := some f } ∧
      ∀ r c : Nat, r < 507 → c < 85 →
        f (r * 85 + c) = if c = 4 ∧ r < 10 then 1/10 else 0 :=
  spec_C10_determinism.2.2 none none "yolo" (by decide)

/-- C1 counterexample: in the simplified backend variant, a successfully
loaded net has its designated detection layer (index 16) configured with
507 rows and 85 columns, yet the forward pass with an absent layer name
does not return a (507, 85)-shaped buffer: it returns a non-null buffer of
shape (0, 0), because the simplified forward pass produces the 507 x 85
output only when the layer string contains "yolo". -/
theorem spec_C1_counterexample :
    ((simple_dnn_load "valid.cfg" "valid.weights").layers 16).rows = 507 ∧
    ((simple_dnn_load "valid.cfg" "valid.weights").layers 16).cols = 85 ∧
    ¬ ∃ m, simple_dnn_forward (some (simple_dnn_load "valid.cfg" "valid.weights"))
        (some c1InputBlob) none = some m ∧ m.rows = 507 ∧ m.cols = 85 := by
  refine ⟨rfl, rfl, ?_⟩
  rintro ⟨m, hm, hr, hc⟩
  obtain rfl := (Option.some.inj hm).symm
  exact absurd hr (by decide)

/-- C1 (amended): in the real backend variant, for every successfully
loaded handle whose resolved unconnected output layer is declared with 507
rows and 85 columns and whose native evaluation does not fault, running
the forward pass with an absent or empty layer name after binding the blob
built with scale 1/255 and size 416 x 416 returns a non-null buffer whose
shape reads back as exactly (507, 85). In the simplified variant an absent
or empty layer name instead yields a non-null buffer of shape (0, 0); the
(507, 85) shape is produced there only when the layer name contains
"yolo". -/
theorem spec_C1_amended :
    (∀ (net : CvNet) (dname : String) (lname : Option String)
        (blob : CvBlob) (net1 : CvNet),
      net.unconnectedOutLayersNames = [dname] →
      net.layerShape dname = (507, 85) →
      (lname = none ∨ lname = some "") →
      opencv_dnn_blobFromImage none (1/255) 416 416 = some blob →
      opencv_dnn_setInput (some net) (some blob) = (0, some net1) →
      net1.faults net1.input [dname] = false →
      ∃ m, opencv_dnn_forward (some net1) (some blob) lname none = some m ∧
        opencv_dnn_getOutputDims (some m) = (0, 507, 85)) ∧
    (∀ net input (lname : Option String), lname = none ∨ lname = some "" →
      ∃ m, simple_dnn_forward net input lname = some m ∧
        m.rows = 0 ∧ m.cols = 0) ∧
    (∀ net input s, strContains s.toList ("yolo".toList) = true →
      ∃ m, simple_dnn_forward net input (some s) = some m ∧
        m.rows = 507 ∧ m.cols = 85) := by
  refine ⟨?_, ?_, ?_⟩
  · intro net dname lname blob net1 h1 h2 hl hb hsi hf
    obtain rfl : blob = probeBlob416 :=
      (Option.some.inj hb).symm
    obtain rfl : net1 = { net with input := some probeBlob416 } :=
      (Option.some.inj (congrArg Prod.snd hsi)).symm
    have hres : resolveOutNames { net with input := some probeBlob416 } lname = [dname] := by
      rcases hl with rfl | rfl <;> simp [resolveOutNames, h1]
    have hfp : CvNet.forwardPrim { net with input := some probeBlob416 } [dname]
        = some [{ rows := 507, cols := 85, elem := net.layerData dname }] := by
      simp only [CvNet.forwardPrim]
      rw [hf]
      rw [if_neg (by simp)]
      simp [List.map_cons, List.map_nil, h2]
    refine ⟨{ rows := 507, cols := 85, elem := net.layerData dname }, ?_, rfl⟩
    simp only [opencv_dnn_forward, hres, hfp]
  · intro net input lname hl
    rcases hl with rfl | rfl
    · exact ⟨{ rows := 0, cols := 0, data := none }, rfl, rfl, rfl⟩
    · exact ⟨{ rows := 0, cols := 0, data := none }, rfl, rfl, rfl⟩
  · intro net input s hs
    refine ⟨{ rows := 507, cols := 85, data := some simpleYoloData }, ?_, rfl, rfl⟩
    simp only [simple_dnn_forward]
    rw [hs]
    rfl

/-- C1 witness: the real-variant round trip at the concrete probe network
bound to the blob built from a null image with scale 1/255 and size
416 x 416. -/
theorem spec_C1_witness :
    ∃ m, opencv_dnn_forward (some probeNetBound) (some probeBlob416) none none
        = some m ∧
      opencv_dnn_getOutputDims (some m) = (0, 507, 85) :=
  spec_C1_amended.1 probeNet "detection_out" none probeBlob416 probeNetBound
    rfl rfl (Or.inl rfl) rfl rfl rfl

/-- C4 counterexample: in the simplified backend variant the forward pass
never checks the network handle, so calling it with a null handle still
returns a non-null output buffer (here the 507 x 85 yolo buffer), refuting
the claim that a null handle yields a null output in both variants. -/
theorem spec_C4_counterexample :
    simple_dnn_forward none (some c1InputBlob) (some "yolo") ≠ none := by
  intro hnull
  exact Option.noConfusion hnull

/-- C4 (amended): in the real backend variant, the forward pass with a
null network handle returns a null output buffer, and a non-null buffer is
returned only when a handle is present and the native evaluation of the
resolved output layers does not fault; in the simplified variant the
handle and the input are ignored and a (possibly empty-shaped) non-null
buffer is always returned, even for a null handle. -/
theorem spec_C4_amended :
    (∀ blob_ptr lname output_ptr,
      opencv_dnn_forward none blob_ptr lname output_ptr = none) ∧
    (∀ net_ptr blob_ptr lname output_ptr m,
      opencv_dnn_forward net_ptr blob_ptr lname output_ptr = some m →
      ∃ net outs, net_ptr = some net ∧
        CvNet.forwardPrim net (resolveOutNames net lname) = some outs) ∧
    (∀ net input layer, ∃ m, simple_dnn_forward net input layer = some m) := by
  refine ⟨fun _ _ _ => rfl, ?_, fun net input layer => ⟨_, rfl⟩⟩
  intro net_ptr blob_ptr lname output_ptr m hm
  cases net_ptr with
  | none => exact absurd hm (by simp [opencv_dnn_forward])
  | some net =>
    cases hfp : CvNet.forwardPrim net (resolveOutNames net lname) with
    | none =>
      exfalso
      simp [opencv_dnn_forward, hfp] at hm
    | some outs => exact ⟨net, outs, rfl, hfp⟩

/-- C4 witness: the amended contract at the concrete probe network with an
absent layer name, whose forward pass succeeds. -/
theorem spec_C4_witness :
    ∃ net outs, (some probeNet : Option CvNet) = some net ∧
      CvNet.forwardPrim net (resolveOutNames net none) = some outs :=
  spec_C4_amended.2.1 (some probeNet) none none none
    { rows := 507, cols := 85, elem := probeNet.layerData "detection_out" } rfl
